import Mathlib

/-!
Shallow embedding of the token-accounting module `api/tokens.py` of the
chat2api repository, together with theorems settling the frozen claims
about it.

Modelling conventions:
* The external `tiktoken` library is abstracted as a `Tiktoken` record: a
  partial map from model identifiers to encodings (`encoding_for_model`,
  which in Python raises `KeyError` on unknown models, here returns
  `none`) and the fixed default encoding `cl100k_base`.  An `Encoding` is
  an opaque pair of total functions `encode : String → List Nat` and
  `decode : List Nat → String`.
* Python integers become `Nat`/`Int`.  The float expressions
  `int(width * (2048 / max_dimension))` and `math.ceil(width / 512)` are
  modelled by exact rational arithmetic with truncation: `w * 2048 / m`
  (Nat floor division) and `(w + 511) / 512` (Nat ceiling division).
* Python list slicing `encoded_content[:max_tokens]` (with `max_tokens`
  a possibly negative `int`) is modelled faithfully by `listSliceTo`.
* The `async` qualifiers are irrelevant (no awaits inside the bodies);
  every function is a pure computation, so the embedding uses plain
  functions.
-/

/-- An opaque reversible tokenizer, the shape of a tiktoken `Encoding`:
`encode` turns text into a sequence of integer token IDs, `decode` turns a
sequence of token IDs back into text. -/
structure Encoding where
  encode : String → List Nat
  decode : List Nat → String

/-- The tiktoken interface as used by `api/tokens.py`:
`encoding_for_model` maps a model identifier to its dedicated encoding and
is partial (Python raises `KeyError` for an unknown model, modelled by
`none`); `cl100k_base` is the fixed default encoding fetched by
`tiktoken.get_encoding("cl100k_base")`. -/
structure Tiktoken where
  encoding_for_model : String → Option Encoding
  cl100k_base : Encoding

/-- The `try: encoding = tiktoken.encoding_for_model(model) except KeyError:
encoding = tiktoken.get_encoding("cl100k_base")` pattern shared by
`num_tokens_from_messages`, `num_tokens_from_content` and
`split_tokens_from_content`: resolve the model's encoding, falling back to
the default on an unknown model.  Total by construction — the `KeyError`
is the `none` case of the partial map. -/
def resolveEncoding (tk : Tiktoken) (model : String) : Encoding :=
  (tk.encoding_for_model model).getD tk.cl100k_base

/-- One element of a list-valued message field (multimodal content part):
a dict with a `"type"` tag and, for text parts, a `"text"` payload. -/
structure ContentPart where
  type : String
  text : String
deriving DecidableEq

/-- A message field's value: either a plain string or a list of content
parts (the two cases distinguished by `isinstance(value, list)` in the
source). -/
inductive Value where
  | vstr : String → Value
  | vlist : List ContentPart → Value
deriving DecidableEq

/-- A chat message: an ordered dict of fields, each a key paired with a
value (`for key, value in message.items()` iterates in insertion order). -/
abbrev Message := List (String × Value)

/-- Body of the inner loop of `num_tokens_from_messages` for one field's
value: if the value is a list, walk its parts, adding the encoded length
of each `"text"` part (an `"image_url"` part falls into the `pass` branch
and adds nothing, as does any other tag); otherwise add the encoded length
of the plain string value. -/
def value_tokens_acc (enc : Encoding) (acc : Nat) (v : Value) : Nat :=
  match v with
  | Value.vlist items =>
      items.foldl
        (fun a item =>
          if item.type = "text" then a + (enc.encode item.text).length else a)
        acc
  | Value.vstr s => acc + (enc.encode s).length

/-- Embedding of `num_tokens_from_messages(messages, model='')` from
`api/tokens.py`: resolve the encoding, pick `tokens_per_message` (4 for
`"gpt-3.5-turbo-0301"`, else 3), then for each message add
`tokens_per_message`, walk its fields, and add the trailing `+ 3`. -/
def num_tokens_from_messages (tk : Tiktoken) (messages : List Message) (model : String) : Nat :=
  let encoding := resolveEncoding tk model
  let tokens_per_message := if model = "gpt-3.5-turbo-0301" then 4 else 3
  messages.foldl
    (fun numTokens message =>
      (message.foldl (fun acc kv => value_tokens_acc encoding acc kv.2)
        (numTokens + tokens_per_message)) + 3)
    0

/-- Embedding of `num_tokens_from_content(content, model=None)` from
`api/tokens.py`: resolve the encoding, encode the content, return the
length of the token sequence. -/
def num_tokens_from_content (tk : Tiktoken) (content : String) (model : String) : Nat :=
  let encoding := resolveEncoding tk model
  (encoding.encode content).length

/-- Python list slicing `l[:n]` for a possibly negative `int` bound `n`:
for `0 ≤ n` it keeps the first `n` elements, for `n < 0` it keeps all but
the last `-n` elements (empty when `-n` exceeds the length; `Int.toNat`
clamps at 0 exactly as Python's slice clamping does). -/
def listSliceTo (l : List Nat) (n : Int) : List Nat :=
  if 0 ≤ n then l.take n.toNat else l.take ((l.length : Int) + n).toNat

/-- Embedding of `split_tokens_from_content(content, max_tokens, model=None)`
from `api/tokens.py`: encode the content; if its length reaches
`max_tokens`, decode the slice `encoded_content[:max_tokens]` and report
`(decoded, max_tokens, "length")`, else report the content unchanged with
its length and `"stop"`.  `max_tokens` is a Python `int`, hence `Int`. -/
def split_tokens_from_content (tk : Tiktoken) (content : String) (max_tokens : Int)
    (model : String) : String × Int × String :=
  let encoding := resolveEncoding tk model
  let encoded_content := encoding.encode content
  let len_encoded_content := encoded_content.length
  if (len_encoded_content : Int) ≥ max_tokens then
    (encoding.decode (listSliceTo encoded_content max_tokens), max_tokens, "length")
  else
    (content, (len_encoded_content : Int), "stop")

/-- Embedding of `calculate_image_tokens(width, height, detail)` from
`api/tokens.py`: 85 flat for `"low"` detail; otherwise cap the larger side
at 2048 (scale both sides by `2048 / max`, truncating), then cap the
smaller side of the result at 768 (scale both by `768 / min`, truncating),
tile into 512×512 blocks and charge `tiles * 170 + 85`.  The Python float
products `int(d * (2048 / m))` are modelled exactly as `d * 2048 / m` in
`Nat`, and `math.ceil(d / 512)` as `(d + 511) / 512`. -/
def calculate_image_tokens (width height : Nat) (detail : String) : Nat :=
  if detail = "low" then
    85
  else
    let maxDimension := max width height
    let width1 := if maxDimension > 2048 then width * 2048 / maxDimension else width
    let height1 := if maxDimension > 2048 then height * 2048 / maxDimension else height
    let minDimension := min width1 height1
    let width2 := if minDimension > 768 then width1 * 768 / minDimension else width1
    let height2 := if minDimension > 768 then height1 * 768 / minDimension else height1
    let numMasksW := (width2 + 511) / 512
    let numMasksH := (height2 + 511) / 512
    numMasksW * numMasksH * 170 + 85

/-- Token cost of one content part as the spec states it: the encoded
length for a `"text"` part, 0 for an `"image_url"` part (and 0 for any
other tag). -/
def claim_part_tokens (enc : Encoding) (p : ContentPart) : Nat :=
  if p.type = "text" then (enc.encode p.text).length else 0

/-- Token cost of one field value as the spec states it: sum of the parts
for a list value, encoded length for a plain string. -/
def claim_value_tokens (enc : Encoding) (v : Value) : Nat :=
  match v with
  | Value.vstr s => (enc.encode s).length
  | Value.vlist ps => (ps.map (claim_part_tokens enc)).sum

/-- Token cost of one message's fields as the spec states it. -/
def claim_message_tokens (enc : Encoding) (m : Message) : Nat :=
  (m.map (fun kv => claim_value_tokens enc kv.2)).sum

/-- The role-dependent per-message overhead constant of the spec: 4 for
the legacy `"gpt-3.5-turbo-0301"` identifier, 3 for every other model. -/
def per_message_overhead (model : String) : Nat :=
  if model = "gpt-3.5-turbo-0301" then 4 else 3

/-- The message-list total as the spec states it: the sum over messages of
overhead + field tokens + 3, both additions occurring once per message. -/
def claim_messages_total (tk : Tiktoken) (msgs : List Message) (model : String) : Nat :=
  (msgs.map (fun m =>
    per_message_overhead model + claim_message_tokens (resolveEncoding tk model) m + 3)).sum

/-- First resize stage as the spec states it: cap the larger side at 2048,
truncating both scaled dimensions. -/
def resizeStage1 (w h : Nat) : Nat × Nat :=
  if max w h > 2048 then (w * 2048 / max w h, h * 2048 / max w h) else (w, h)

/-- Second resize stage as the spec states it: cap the smaller side at
768, truncating both scaled dimensions. -/
def resizeStage2 (w h : Nat) : Nat × Nat :=
  if min w h > 768 then (w * 768 / min w h, h * 768 / min w h) else (w, h)

/-- Tiling cost as the spec states it: `ceil(w/512) * ceil(h/512) * 170 + 85`. -/
def tileTokenCount (w h : Nat) : Nat :=
  ((w + 511) / 512) * ((h + 511) / 512) * 170 + 85

/-- Image token count as the spec states it: stage 2 applied to stage 1's
output (not the original dimensions), then the tiling cost. -/
def claim_image_tokens (w h : Nat) : Nat :=
  tileTokenCount (resizeStage2 (resizeStage1 w h).1 (resizeStage1 w h).2).1
    (resizeStage2 (resizeStage1 w h).1 (resizeStage1 w h).2).2

/-- A concrete executable encoding for witnesses and counterexamples: one
token per character (token ID = code point). -/
def charEncoding : Encoding :=
  Encoding.mk (fun s => s.data.map Char.toNat) (fun l => String.mk (l.map Char.ofNat))

/-- A concrete tiktoken instance whose model table is empty, so every
model falls back to `charEncoding` as the default. -/
def charTiktoken : Tiktoken :=
  Tiktoken.mk (fun _ => none) charEncoding

/-- Folding the inner part-loop of `num_tokens_from_messages` over a part
list equals the accumulator plus the sum of the per-part costs. -/
theorem parts_foldl_eq (enc : Encoding) :
    ∀ (l : List ContentPart) (a : Nat),
      l.foldl
        (fun a item =>
          if item.type = "text" then a + (enc.encode item.text).length else a)
        a
      = a + (l.map (claim_part_tokens enc)).sum := by
  intro l
  induction l with
  | nil => intro a; simp
  | cons p ps ih =>
      intro a
      by_cases hp : p.type = "text"
      · simp [List.foldl, ih, claim_part_tokens, hp]
        omega
      · simp [List.foldl, ih, claim_part_tokens, hp]

/-- The loop body for one field's value adds exactly the per-value cost. -/
theorem value_tokens_acc_eq (enc : Encoding) (acc : Nat) (v : Value) :
    value_tokens_acc enc acc v = acc + claim_value_tokens enc v := by
  cases v with
  | vstr s => rfl
  | vlist items => simpa [value_tokens_acc, claim_value_tokens] using parts_foldl_eq enc items acc

/-- Folding the field loop over one message adds exactly the message's
field cost. -/
theorem message_foldl_eq (enc : Encoding) :
    ∀ (m : Message) (a : Nat),
      m.foldl (fun acc kv => value_tokens_acc enc acc kv.2) a
        = a + claim_message_tokens enc m := by
  intro m
  induction m with
  | nil => intro a; simp [claim_message_tokens]
  | cons kv rest ih =>
      intro a
      rw [List.foldl_cons, ih, value_tokens_acc_eq]
      simp [claim_message_tokens]
      omega

/-- The message-list fold of `num_tokens_from_messages` equals the
per-message sum stated by the spec. -/
theorem num_tokens_from_messages_eq (tk : Tiktoken) (msgs : List Message) (model : String) :
    num_tokens_from_messages tk msgs model = claim_messages_total tk msgs model := by
  have step :
      ∀ (l : List Message) (a : Nat),
        l.foldl
          (fun numTokens message =>
            (message.foldl
                (fun acc kv => value_tokens_acc (resolveEncoding tk model) acc kv.2)
                (numTokens + (if model = "gpt-3.5-turbo-0301" then 4 else 3))) + 3)
          a
        = a + (l.map (fun m =>
            per_message_overhead model
              + claim_message_tokens (resolveEncoding tk model) m + 3)).sum := by
    intro l
    induction l with
    | nil => intro a; simp
    | cons m rest ih =>
        intro a
        rw [List.foldl_cons, ih, message_foldl_eq]
        simp [per_message_overhead]
        omega
  have h0 : num_tokens_from_messages tk msgs model =
      msgs.foldl
        (fun numTokens message =>
          (message.foldl
              (fun acc kv => value_tokens_acc (resolveEncoding tk model) acc kv.2)
              (numTokens + (if model = "gpt-3.5-turbo-0301" then 4 else 3))) + 3)
        0 := rfl
  rw [h0, step]
  simp [claim_messages_total]

/-- Claim C1: for every message list and model, `num_tokens_from_messages`
returns the sum, over the messages in order, of the role-dependent
per-message overhead, plus for each field the token count of its value
(for a list-valued field, the count of each `"text"` part and 0 for each
`"image_url"` part; for a non-list field, the count of the string value),
plus an additional 3 per message — both the overhead and the `+3` are
added once for every message, not just the last. -/
theorem num_tokens_from_messages_is_sum (tk : Tiktoken) (msgs : List Message) (model : String) :
    num_tokens_from_messages tk msgs model = claim_messages_total tk msgs model :=
  num_tokens_from_messages_eq tk msgs model

/-- Claim C6: in `num_tokens_from_messages` the per-message overhead
constant is 4 when the model identifier is exactly `"gpt-3.5-turbo-0301"`
and 3 for every other model identifier (including the empty string and
unrecognized names), for message lists of any length. -/
theorem num_tokens_from_messages_overhead (tk : Tiktoken) (msgs : List Message) :
    num_tokens_from_messages tk msgs "gpt-3.5-turbo-0301"
      = (msgs.map (fun m =>
          4 + claim_message_tokens (resolveEncoding tk "gpt-3.5-turbo-0301") m + 3)).sum
    ∧ ∀ model : String, model ≠ "gpt-3.5-turbo-0301" →
        num_tokens_from_messages tk msgs model
          = (msgs.map (fun m =>
              3 + claim_message_tokens (resolveEncoding tk model) m + 3)).sum := by
  constructor
  · rw [num_tokens_from_messages_eq]
    simp [claim_messages_total, per_message_overhead]
  · intro model hm
    rw [num_tokens_from_messages_eq]
    simp [claim_messages_total, per_message_overhead, hm]

/-- Witness for claim C6: the non-legacy branch at the concrete model
`"x"` and a concrete singleton message list. -/
theorem num_tokens_from_messages_overhead_witness :
    num_tokens_from_messages charTiktoken [[("content", Value.vstr "ab")]] "x"
      = ([[("content", Value.vstr "ab")]].map (fun m =>
          3 + claim_message_tokens (resolveEncoding charTiktoken "x") m + 3)).sum :=
  (num_tokens_from_messages_overhead charTiktoken [[("content", Value.vstr "ab")]]).2 "x"
    (by decide)

/-- Claim C5: the token count returned by `split_tokens_from_content` is
at most `max_tokens`, and the returned reason is `"length"` exactly when
the returned count equals `max_tokens`, else `"stop"`. -/
theorem split_tokens_from_content_budget (tk : Tiktoken) (content : String) (max_tokens : Int)
    (model : String) :
    (split_tokens_from_content tk content max_tokens model).2.1 ≤ max_tokens
    ∧ (split_tokens_from_content tk content max_tokens model).2.2
        = (if (split_tokens_from_content tk content max_tokens model).2.1 = max_tokens
           then "length" else "stop") := by
  unfold split_tokens_from_content
  by_cases h : ((((resolveEncoding tk model).encode content).length : Int) ≥ max_tokens)
  · simp [h]
  · push_neg at h
    simp only [ge_iff_le, not_le, h, if_neg (not_le.mpr h)]
    constructor
    · simpa using le_of_lt h
    · have hne : (((resolveEncoding tk model).encode content).length : Int) ≠ max_tokens :=
        ne_of_lt h
      simp [hne]

/-- Claim C3 (amended to non-negative `max_tokens`): for `0 ≤ max_tokens`,
`split_tokens_from_content` returns the decode of the first `max_tokens`
token IDs with count `max_tokens` and reason `"length"` when the encoded
length reaches `max_tokens`, and the original text with its encoded length
and reason `"stop"` otherwise. -/
theorem split_tokens_from_content_nonneg (tk : Tiktoken) (content : String) (max_tokens : Int)
    (model : String) (h : 0 ≤ max_tokens) :
    split_tokens_from_content tk content max_tokens model
      = (if (((resolveEncoding tk model).encode content).length : Int) ≥ max_tokens
         then ((resolveEncoding tk model).decode
                (((resolveEncoding tk model).encode content).take max_tokens.toNat),
               max_tokens, "length")
         else (content, (((resolveEncoding tk model).encode content).length : Int), "stop")) := by
  unfold split_tokens_from_content listSliceTo
  simp [h]

/-- Counterexample for claim C3 as frozen: at `max_tokens = -1` the code
takes the `"length"` branch but Python's slice `encoded[:-1]` keeps all
but the last token, so the output is not the decode of the first
`max_tokens` (that is, zero) token IDs: on `"ab"` under the per-character
encoding the code returns `("a", -1, "length")`, not `("", -1, "length")`. -/
theorem split_tokens_from_content_neg_take_counterexample :
    split_tokens_from_content charTiktoken "ab" (-1) "m"
      ≠ (charEncoding.decode ((charEncoding.encode "ab").take (Int.toNat (-1))), -1, "length") := by
  decide

/-- Witness for the amended claim C3 at the concrete budget 1 on `"ab"`. -/
theorem split_tokens_from_content_nonneg_witness :
    split_tokens_from_content charTiktoken "ab" 1 "m"
      = (if (((resolveEncoding charTiktoken "m").encode "ab").length : Int) ≥ 1
         then ((resolveEncoding charTiktoken "m").decode
                (((resolveEncoding charTiktoken "m").encode "ab").take (Int.toNat 1)),
               1, "length")
         else ("ab", (((resolveEncoding charTiktoken "m").encode "ab").length : Int), "stop")) :=
  split_tokens_from_content_nonneg charTiktoken "ab" 1 "m" (by decide)

/-- Claim C4 (amended to `max_tokens = 0`): for an encoding that decodes
the empty token sequence to the empty string, calling
`split_tokens_from_content` with `max_tokens = 0` returns exactly
`("", 0, "length")`. -/
theorem split_tokens_from_content_zero (tk : Tiktoken) (content : String) (model : String)
    (h : (resolveEncoding tk model).decode [] = "") :
    split_tokens_from_content tk content 0 model = ("", 0, "length") := by
  unfold split_tokens_from_content listSliceTo
  have hge : (((resolveEncoding tk model).encode content).length : Int) ≥ 0 := by positivity
  simp [hge, h]

/-- Counterexample for claim C4 as frozen: at the negative budget
`max_tokens = -1` on `"ab"` the code returns `("a", -1, "length")` — the
count is `-1`, not 0, and the text is nonempty — so not every
`max_tokens ≤ 0` yields the degenerate triple `("", 0, "length")`. -/
theorem split_tokens_from_content_neg_counterexample :
    split_tokens_from_content charTiktoken "ab" (-1) "m" ≠ ("", 0, "length") := by
  decide

/-- Witness for the amended claim C4 at the concrete text `"hello"`. -/
theorem split_tokens_from_content_zero_witness :
    split_tokens_from_content charTiktoken "hello" 0 "m" = ("", 0, "length") :=
  split_tokens_from_content_zero charTiktoken "hello" "m" (by decide)

/-- Scaling a dimension `d ≤ m` by `c / m` with truncation stays at most `c`. -/
theorem scaled_le (d m c : Nat) (hdm : d ≤ m) (hm : 0 < m) : d * c / m ≤ c := by
  calc d * c / m ≤ m * c / m := Nat.div_le_div_right (Nat.mul_le_mul_right c hdm)
    _ = c := Nat.mul_div_cancel_left c hm

/-- Scaling a dimension by `k / m` with `k ≤ m` never enlarges it. -/
theorem shrink_le (d k m : Nat) (hkm : k ≤ m) (hm : 0 < m) : d * k / m ≤ d := by
  calc d * k / m ≤ d * m / m := Nat.div_le_div_right (Nat.mul_le_mul_left d hkm)
    _ = d := Nat.mul_div_cancel d hm

/-- The non-low branch of `calculate_image_tokens` is the composition of
the two resize stages (the second applied to the first's output) followed
by the tiling cost. -/
theorem calculate_image_tokens_eq_claim (w h : Nat) (detail : String) (hd : detail ≠ "low") :
    calculate_image_tokens w h detail = claim_image_tokens w h := by
  unfold calculate_image_tokens claim_image_tokens resizeStage1 resizeStage2 tileTokenCount
  rw [if_neg hd]
  by_cases h1 : max w h > 2048 <;> by_cases h2 : min w h > 768 <;>
    simp [h1, h2, apply_ite]

/-- Claim C2: for every non-negative width and height and every detail
other than `"low"`, `calculate_image_tokens` first caps the larger side at
2048 (truncating), then caps the smaller side of that result — not of the
originals — at 768 (truncating), and returns
`ceil(w/512) * ceil(h/512) * 170 + 85` on the final dimensions; in
particular it maps `(4096, 4096, "high")` to 765 and `(100, 100, "high")`
to 255. -/
theorem calculate_image_tokens_two_stage (w h : Nat) (detail : String) (hd : detail ≠ "low") :
    calculate_image_tokens w h detail = claim_image_tokens w h
    ∧ calculate_image_tokens 4096 4096 "high" = 765
    ∧ calculate_image_tokens 100 100 "high" = 255 :=
  ⟨calculate_image_tokens_eq_claim w h detail hd, by decide, by decide⟩

/-- Witness for claim C2 at the concrete dimensions 4096×4096. -/
theorem calculate_image_tokens_two_stage_witness :
    calculate_image_tokens 4096 4096 "high" = claim_image_tokens 4096 4096 :=
  (calculate_image_tokens_two_stage 4096 4096 "high" (by decide)).1

/-- Claim C7: for all widths and heights (including zero and values above
the resize thresholds), `calculate_image_tokens` with detail `"low"`
returns exactly 85, ignoring the dimensions entirely. -/
theorem calculate_image_tokens_low (w h : Nat) :
    calculate_image_tokens w h "low" = 85 :=
  rfl

/-- After the first resize stage both dimensions are at most 2048. -/
theorem stage1_le (w h : Nat) :
    (resizeStage1 w h).1 ≤ 2048 ∧ (resizeStage1 w h).2 ≤ 2048 := by
  unfold resizeStage1
  by_cases h1 : max w h > 2048
  · have hm : 0 < max w h := by omega
    simp only [h1, if_pos]
    exact ⟨scaled_le w (max w h) 2048 (le_max_left w h) hm,
      scaled_le h (max w h) 2048 (le_max_right w h) hm⟩
  · have := le_of_not_lt h1
    simp only [h1, if_neg, not_false_iff]
    exact ⟨le_trans (le_max_left w h) this, le_trans (le_max_right w h) this⟩

/-- The second resize stage keeps both dimensions at most 2048 and leaves
at least one dimension at most 768. -/
theorem stage2_le (w h : Nat) (hw : w ≤ 2048) (hh : h ≤ 2048) :
    (resizeStage2 w h).1 ≤ 2048 ∧ (resizeStage2 w h).2 ≤ 2048
    ∧ ((resizeStage2 w h).1 ≤ 768 ∨ (resizeStage2 w h).2 ≤ 768) := by
  unfold resizeStage2
  by_cases h2 : min w h > 768
  · have hm : 0 < min w h := by omega
    have h768 : 768 ≤ min w h := by omega
    simp only [h2, if_pos]
    refine ⟨le_trans (shrink_le w 768 (min w h) h768 hm) hw,
      le_trans (shrink_le h 768 (min w h) h768 hm) hh, ?_⟩
    rcases le_total w h with hwh | hwh
    · left
      rw [min_eq_left hwh]
      rw [Nat.mul_div_cancel_left 768 (by omega : 0 < w)]
    · right
      rw [min_eq_right hwh]
      rw [Nat.mul_div_cancel_left 768 (by omega : 0 < h)]
  · have hmin : min w h ≤ 768 := le_of_not_lt h2
    simp only [h2, if_neg, not_false_iff]
    refine ⟨hw, hh, ?_⟩
    rcases le_total w h with hwh | hwh
    · left; rwa [min_eq_left hwh] at hmin
    · right; rwa [min_eq_right hwh] at hmin

/-- A dimension at most 2048 tiles into at most four 512-blocks. -/
theorem ceil512_le_four (w : Nat) (hw : w ≤ 2048) : (w + 511) / 512 ≤ 4 := by
  omega

/-- A dimension at most 768 tiles into at most two 512-blocks. -/
theorem ceil512_le_two (w : Nat) (hw : w ≤ 768) : (w + 511) / 512 ≤ 2 := by
  omega

/-- Claim C10: for every width and height and every detail other than
`"low"`, the result of `calculate_image_tokens` lies between 85 and 1445:
after the two resize stages the larger final dimension is at most 2048 and
the smaller at most 768, so at most `4 * 2 = 8` tiles are charged. -/
theorem calculate_image_tokens_bounds (w h : Nat) (detail : String) (hd : detail ≠ "low") :
    85 ≤ calculate_image_tokens w h detail ∧ calculate_image_tokens w h detail ≤ 1445 := by
  rw [calculate_image_tokens_eq_claim w h detail hd]
  unfold claim_image_tokens tileTokenCount
  obtain ⟨hs1w, hs1h⟩ := stage1_le w h
  obtain ⟨hw2, hh2, hor⟩ := stage2_le (resizeStage1 w h).1 (resizeStage1 w h).2 hs1w hs1h
  set w2 := (resizeStage2 (resizeStage1 w h).1 (resizeStage1 w h).2).1 with hw2def
  set h2 := (resizeStage2 (resizeStage1 w h).1 (resizeStage1 w h).2).2 with hh2def
  constructor
  · omega
  · have htiles : (w2 + 511) / 512 * ((h2 + 511) / 512) ≤ 8 := by
      rcases hor with hle | hle
      · calc (w2 + 511) / 512 * ((h2 + 511) / 512)
            ≤ 2 * 4 := Nat.mul_le_mul (ceil512_le_two w2 hle) (ceil512_le_four h2 hh2)
          _ = 8 := by norm_num
      · calc (w2 + 511) / 512 * ((h2 + 511) / 512)
            ≤ 4 * 2 := Nat.mul_le_mul (ceil512_le_four w2 hw2) (ceil512_le_two h2 hle)
          _ = 8 := by norm_num
    omega

/-- Witness for claim C10 at the concrete dimensions 4096×4096. -/
theorem calculate_image_tokens_bounds_witness :
    85 ≤ calculate_image_tokens 4096 4096 "high"
    ∧ calculate_image_tokens 4096 4096 "high" ≤ 1445 :=
  calculate_image_tokens_bounds 4096 4096 "high" (by decide)

/-- Claim C8: encoder resolution is total (the `KeyError` of an unknown
model is caught), and when the model is unknown every token operation
computes with the fixed default `cl100k_base` encoding: each result equals
the result under a tiktoken instance that knows no models at all and only
supplies the default. -/
theorem encoder_resolution_fallback (tk : Tiktoken) (model : String)
    (h : tk.encoding_for_model model = none) :
    resolveEncoding tk model = tk.cl100k_base
    ∧ (∀ content : String,
        num_tokens_from_content tk content model = (tk.cl100k_base.encode content).length)
    ∧ (∀ msgs : List Message,
        num_tokens_from_messages tk msgs model
          = num_tokens_from_messages (Tiktoken.mk (fun _ => none) tk.cl100k_base) msgs model)
    ∧ (∀ (content : String) (max_tokens : Int),
        split_tokens_from_content tk content max_tokens model
          = split_tokens_from_content (Tiktoken.mk (fun _ => none) tk.cl100k_base) content
              max_tokens model) := by
  have hres : resolveEncoding tk model = tk.cl100k_base := by
    simp [resolveEncoding, h]
  have hres2 : resolveEncoding (Tiktoken.mk (fun _ => none) tk.cl100k_base) model
      = tk.cl100k_base := by
    simp [resolveEncoding]
  refine ⟨hres, fun content => ?_, fun msgs => ?_, fun content max_tokens => ?_⟩
  · simp [num_tokens_from_content, hres]
  · simp only [num_tokens_from_messages, hres, hres2]
  · simp only [split_tokens_from_content, hres, hres2]

/-- Witness for claim C8 at the concrete unknown model `"gpt-4"`. -/
theorem encoder_resolution_fallback_witness :
    resolveEncoding charTiktoken "gpt-4" = charTiktoken.cl100k_base :=
  (encoder_resolution_fallback charTiktoken "gpt-4" rfl).1

/-- Claim C9: for every model identifier, `num_tokens_from_content` on the
empty string returns 0 (for an encoding that maps the empty string to the
empty token sequence, as tiktoken does); the embedding is a pure function,
so the call has no side effects. -/
theorem num_tokens_from_content_empty (tk : Tiktoken) (model : String)
    (h : (resolveEncoding tk model).encode "" = []) :
    num_tokens_from_content tk "" model = 0 := by
  simp [num_tokens_from_content, h]

/-- Witness for claim C9 at the concrete model `"gpt-4"`. -/
theorem num_tokens_from_content_empty_witness :
    num_tokens_from_content charTiktoken "" "gpt-4" = 0 :=
  num_tokens_from_content_empty charTiktoken "gpt-4" rfl
